import Mathlib

/-
Verification of the OncoReg aggregation core (src/aggregation.py,
src/oncoreg/data.py, src/oncoreg/__init__.py) against its specification.

Modelling conventions:
* pandas DataFrames of variant scores are lists of `ScoreRow` records, one
  record per row, in frame order; a list of frames is a `List (List ScoreRow)`.
* floats are embedded as rationals (ℚ); every quantity the spec talks about
  (means of score values, the RBI) is exact rational arithmetic.
* Python exceptions are an `Err` inductive carried in `Except`:
  `ValueError` (spec name: UnsupportedCancerType, and the pandas
  "No objects to concatenate" error), `RuntimeError` (spec name:
  NotConfigured) and `NotImplementedError`.
* the external collaborator `score_variant` (src/scoring.py calls the remote
  AlphaGenome model) is a parameter of the orchestrator: a total function from
  a variant tuple to the score table it returns.
* the orchestrator `score_patient` also returns the list of observable
  events of a run (external scoring calls, tissue resolution) so that
  temporal claims about call order can be stated.
* Python string `.lower()` is embedded per character on code points
  (ASCII letters A–Z map to a–z), and Python string `<` is code-point
  lexicographic comparison; both agree with Python on all inputs used here.
* `pandas.concat` on an empty list raises
  `ValueError("No objects to concatenate")`; on a non-empty list it
  concatenates the rows in order.  `groupby('gene_name')` (default
  `sort=True`) produces one group per distinct gene name, ordered by the
  string order of the names; `sort_values('gene_impact', ascending=False)`
  then orders the rows by descending impact.
-/

/-- Row of a variant score table as produced by `score_variant`
(src/scoring.py docstring: columns gene_name, output_type, ontology_curie,
biosample_name, raw_score, quantile_score). -/
structure ScoreRow where
  gene_name : String
  output_type : String
  ontology_curie : String
  biosample_name : String
  raw_score : ℚ
  quantile_score : ℚ
deriving DecidableEq

/-- Row of the per-gene output of `compute_gene_impact`. -/
structure GeneImpact where
  gene_name : String
  gene_impact : ℚ
deriving DecidableEq

/-- Python exceptions raised by the embedded code. -/
inductive Err where
  | valueError (msg : String)
  | runtimeError (msg : String)
  | notImplementedError (msg : String)
deriving DecidableEq

/-- TISSUE_MAP from src/oncoreg/data.py: cancer-type label to UBERON term,
in source order. -/
def TISSUE_MAP : List (String × String) :=
  [("breast", "UBERON:0008367"),
   ("lung", "UBERON:0002048"),
   ("colon", "UBERON:0001157"),
   ("prostate", "UBERON:0002367"),
   ("ovarian", "UBERON:0000992")]

/-- Python `str.lower` on one character: ASCII A–Z to a–z, all else fixed. -/
def lowerChar (c : Char) : Char :=
  if 65 ≤ c.toNat ∧ c.toNat ≤ 90 then Char.ofNat (c.toNat + 32) else c

/-- Python `str.lower`, applied per character. -/
def lower (s : String) : String := ⟨s.data.map lowerChar⟩

/-- Supported-label listing used in the error message of
`get_tissue_ontology`: Python `", ".join(TISSUE_MAP.keys())`. -/
def supportedTypes : String := ", ".intercalate (TISSUE_MAP.map Prod.fst)

/-- Error message of `get_tissue_ontology` for an unsupported label
(src/oncoreg/data.py lines 29-33). -/
def unsupportedMsg (cancer_type : String) : String :=
  "Cancer type \x27" ++ cancer_type ++ "\x27 not supported. Supported types: "
    ++ supportedTypes

/-- get_tissue_ontology from src/oncoreg/data.py: look up the lower-cased
label in TISSUE_MAP; raise ValueError listing the supported labels when the
label has no entry. -/
def get_tissue_ontology (cancer_type : String) : Except Err String :=
  match TISSUE_MAP.lookup (lower cancer_type) with
  | some ontology => .ok ontology
  | none => .error (.valueError (unsupportedMsg cancer_type))

/-- Code-point lexicographic comparison of character lists (Python string
`<=` restricted to the comparisons the grouping step performs). -/
def charListLe : List Char → List Char → Bool
  | [], _ => true
  | _ :: _, [] => false
  | a :: as, b :: bs =>
    if a.toNat < b.toNat then true
    else if b.toNat < a.toNat then false
    else charListLe as bs

/-- Python string comparison `a <= b` on code points. -/
def str_le (a b : String) : Bool := charListLe a.data b.data

/-- Ordering of group keys used by `groupby('gene_name', sort=True)`. -/
def nameLe (a b : String) : Prop := str_le a b = true

instance : DecidableRel nameLe := fun a b => by unfold nameLe; infer_instance

/-- Ordering used by `sort_values('gene_impact', ascending=False)`. -/
def impactGe (a b : GeneImpact) : Prop := b.gene_impact ≤ a.gene_impact

instance : DecidableRel impactGe := fun a b => by unfold impactGe; infer_instance

/-- Row predicate of the filter step of compute_gene_impact
(src/aggregation.py lines 29-33): target tissue and RNA_SEQ only. -/
def rowMatches (ontology : String) (r : ScoreRow) : Bool :=
  r.ontology_curie == ontology && r.output_type == "RNA_SEQ"

/-- Mean of the absolute raw scores of a list of rows
(`x.abs().mean()` in src/aggregation.py line 38). -/
def meanAbs (rows : List ScoreRow) : ℚ :=
  (rows.map (fun r => |r.raw_score|)).sum / rows.length

/-- compute_gene_impact from src/aggregation.py: resolve the tissue
ontology, concatenate the score tables (pandas raises ValueError on an empty
list), filter to the target tissue and RNA_SEQ, group by gene_name (groups
in gene-name order), take the mean absolute raw score of each group, and
sort the result by descending gene_impact. -/
def compute_gene_impact (list_of_df_scores : List (List ScoreRow))
    (cancer_type : String) : Except Err (List GeneImpact) :=
  match get_tissue_ontology cancer_type with
  | .error e => .error e
  | .ok ontology =>
    if list_of_df_scores.isEmpty then
      .error (.valueError "No objects to concatenate")
    else
      let all_scores := list_of_df_scores.flatten
      let filtered := all_scores.filter (rowMatches ontology)
      let names := List.insertionSort nameLe
        ((filtered.map (fun r => r.gene_name)).dedup)
      let gene_impact := names.map (fun g =>
        GeneImpact.mk g (meanAbs (filtered.filter (fun r => r.gene_name == g))))
      .ok (List.insertionSort impactGe gene_impact)

/-- compute_rbi from src/aggregation.py: sum of the gene impacts divided by
the number of genes, 0.0 when there are no genes. -/
def compute_rbi (gene_impact_df : List GeneImpact) : ℚ :=
  let total_burden := (gene_impact_df.map (fun g => g.gene_impact)).sum
  let n_genes := gene_impact_df.length
  if n_genes > 0 then total_burden / n_genes else 0

/-- Variants argument of score_patient: either a VCF file path or a list of
(chrom, pos, ref, alt) tuples. -/
inductive VariantsArg where
  | vcfPath (path : String)
  | tuples (vs : List (String × Int × String × String))

/-- Observable events of a score_patient run, in order: one external
scoring call per variant, and the tissue-ontology resolution performed
inside compute_gene_impact. -/
inductive Event where
  | scoreCall (chrom : String) (pos : Int) (ref alt : String)
  | resolveTissue (cancer_type : String)
deriving DecidableEq

/-- Detailed result dictionary of score_patient (return_details=True). -/
structure PatientDetails where
  rbi : ℚ
  n_variants : Nat
  n_genes : Nat
  gene_impacts : List GeneImpact
  total_burden : ℚ
deriving DecidableEq

/-- Result of score_patient: scalar RBI or the details dictionary. -/
inductive ScoreResult where
  | scalar (rbi : ℚ)
  | details (d : PatientDetails)
deriving DecidableEq

/-- Message of the RuntimeError raised by _check_configured
(src/oncoreg/__init__.py lines 73-78). -/
def notConfiguredMsg : String :=
  "OncoReg has not been configured. Please call oncoreg.configure(api_key=\x27your_key\x27) first."

/-- Message of the NotImplementedError for a VCF path argument
(src/oncoreg/__init__.py line 124). -/
def vcfMsg : String :=
  "VCF file parsing not yet implemented. Pass list of variants."

/-- score_patient from src/oncoreg/__init__.py: check configuration, reject
VCF path input, score each variant in order through the external
collaborator, aggregate with compute_gene_impact (which resolves the
tissue), normalize with compute_rbi, and return either the scalar RBI or
the details dictionary.  Returns the event trace of the run alongside the
result. -/
def score_patient (configured : Bool)
    (score_variant : String → Int → String → String → List ScoreRow)
    (variants : VariantsArg) (cancer_type : String) (return_details : Bool) :
    List Event × Except Err ScoreResult :=
  if !configured then ([], .error (.runtimeError notConfiguredMsg))
  else
    match variants with
    | .vcfPath _ => ([], .error (.notImplementedError vcfMsg))
    | .tuples vs =>
      let events := vs.map (fun v => Event.scoreCall v.1 v.2.1 v.2.2.1 v.2.2.2)
        ++ [Event.resolveTissue cancer_type]
      let all_scores := vs.map (fun v => score_variant v.1 v.2.1 v.2.2.1 v.2.2.2)
      match compute_gene_impact all_scores cancer_type with
      | .error e => (events, .error e)
      | .ok gene_impact =>
        let rbi := compute_rbi gene_impact
        if return_details then
          (events, .ok (.details
            { rbi := rbi
              n_variants := vs.length
              n_genes := gene_impact.length
              gene_impacts := gene_impact
              total_burden := (gene_impact.map (fun g => g.gene_impact)).sum }))
        else (events, .ok (.scalar rbi))

/-- Rows of the concatenated input that match the target tissue, the target
assay and a given gene: the reference set the spec says each gene impact
averages over. -/
def matching_rows (tables : List (List ScoreRow)) (ontology g : String) :
    List ScoreRow :=
  tables.flatten.filter (fun r =>
    r.ontology_curie == ontology && r.output_type == "RNA_SEQ"
      && r.gene_name == g)

/-- External collaborator stub used for concrete runs: scores every variant
with an empty table. -/
def emptyScorer : String → Int → String → String → List ScoreRow :=
  fun _ _ _ _ => []

/-- Characters with equal code points are equal. -/
theorem char_toNat_inj {a b : Char} (h : a.toNat = b.toNat) : a = b := by
  have h2 := congrArg Char.ofNat h
  rwa [Char.ofNat_toNat, Char.ofNat_toNat] at h2

/-- The code-point comparison is total. -/
theorem charListLe_total :
    ∀ a b : List Char, charListLe a b = true ∨ charListLe b a = true
  | [], _ => Or.inl rfl
  | _ :: _, [] => Or.inr rfl
  | a :: as, b :: bs => by
    rcases Nat.lt_trichotomy a.toNat b.toNat with h | h | h
    · exact Or.inl (by simp [charListLe, h])
    · rcases charListLe_total as bs with ih | ih
      · exact Or.inl (by simp [charListLe, h, ih])
      · exact Or.inr (by simp [charListLe, ← h, ih])
    · exact Or.inr (by simp [charListLe, h])

/-- The code-point comparison is transitive. -/
theorem charListLe_trans :
    ∀ a b c : List Char, charListLe a b = true → charListLe b c = true →
      charListLe a c = true
  | [], _, _, _, _ => rfl
  | _ :: _, [], _, h, _ => by simp [charListLe] at h
  | _ :: _, _ :: _, [], _, h => by simp [charListLe] at h
  | a :: as, b :: bs, c :: cs, h₁, h₂ => by
    rcases Nat.lt_trichotomy b.toNat a.toNat with hab | hab | hab
    · simp [charListLe, hab, Nat.lt_asymm hab] at h₁
    · rcases Nat.lt_trichotomy c.toNat b.toNat with hbc | hbc | hbc
      · simp [charListLe, hbc, Nat.lt_asymm hbc] at h₂
      · have hac : c.toNat = a.toNat := hbc.trans hab
        simp [charListLe, hab, hbc] at h₁ h₂
        simp [charListLe, hac, charListLe_trans as bs cs h₁ h₂]
      · have hac : a.toNat < c.toNat := hab ▸ hbc
        simp [charListLe, hac]
    · rcases Nat.lt_trichotomy c.toNat b.toNat with hbc | hbc | hbc
      · simp [charListLe, hbc, Nat.lt_asymm hbc] at h₂
      · have hac : a.toNat < c.toNat := hbc.symm ▸ hab
        simp [charListLe, hac]
      · have hac : a.toNat < c.toNat := Nat.lt_trans hab hbc
        simp [charListLe, hac]

/-- The code-point comparison is antisymmetric. -/
theorem charListLe_antisymm :
    ∀ a b : List Char, charListLe a b = true → charListLe b a = true → a = b
  | [], [], _, _ => rfl
  | [], _ :: _, _, h => by simp [charListLe] at h
  | _ :: _, [], h, _ => by simp [charListLe] at h
  | a :: as, b :: bs, h₁, h₂ => by
    rcases Nat.lt_trichotomy a.toNat b.toNat with hab | hab | hab
    · simp [charListLe, hab, Nat.lt_asymm hab] at h₂
    · obtain rfl : a = b := char_toNat_inj hab
      simp [charListLe] at h₁ h₂
      rw [charListLe_antisymm as bs h₁ h₂]
    · simp [charListLe, hab, Nat.lt_asymm hab] at h₁

instance : IsTotal String nameLe :=
  ⟨fun a b => charListLe_total a.data b.data⟩

instance : IsTrans String nameLe :=
  ⟨fun a b c => charListLe_trans a.data b.data c.data⟩

instance : IsAntisymm String nameLe :=
  ⟨fun a b h₁ h₂ => by
    have hd := charListLe_antisymm a.data b.data h₁ h₂
    cases a; cases b; exact congrArg String.mk hd⟩

instance : IsTotal GeneImpact impactGe :=
  ⟨fun a b => le_total b.gene_impact a.gene_impact⟩

instance : IsTrans GeneImpact impactGe :=
  ⟨fun _ _ _ h₁ h₂ => le_trans h₂ h₁⟩

instance {ε α : Type} [DecidableEq ε] [DecidableEq α] : DecidableEq (Except ε α)
  | .ok a, .ok b =>
    if h : a = b then isTrue (by rw [h]) else isFalse (by simp [h])
  | .ok _, .error _ => isFalse (by simp)
  | .error _, .ok _ => isFalse (by simp)
  | .error e, .error f =>
    if h : e = f then isTrue (by rw [h]) else isFalse (by simp [h])

/-- Claim C9: whenever the external scoring collaborator has not been
configured, score_patient fails with the NotConfigured error (Python
RuntimeError from _check_configured) before attempting any work: the event
trace is empty, so no variant is scored and no aggregation or tissue
resolution is performed, for every collaborator, variants argument,
cancer type and detail flag. -/
theorem score_patient_not_configured_fails_before_work
    (score_variant : String → Int → String → String → List ScoreRow)
    (variants : VariantsArg) (cancer_type : String) (return_details : Bool) :
    score_patient false score_variant variants cancer_type return_details
      = ([], .error (.runtimeError notConfiguredMsg)) := rfl

/-- Claim C10: for every string (VCF path) passed as the variants argument
after configuration, score_patient raises NotImplementedError with an empty
event trace (no variant scored); and when not configured the same call
fails with the NotConfigured RuntimeError instead, so the configuration
check precedes the string check. -/
theorem score_patient_vcf_path_not_implemented
    (score_variant : String → Int → String → String → List ScoreRow)
    (path : String) (cancer_type : String) (return_details : Bool) :
    score_patient true score_variant (.vcfPath path) cancer_type return_details
      = ([], .error (.notImplementedError vcfMsg))
    ∧ score_patient false score_variant (.vcfPath path) cancer_type return_details
      = ([], .error (.runtimeError notConfiguredMsg)) :=
  ⟨rfl, rfl⟩

/-- Claim C3 (code bug): on an empty list of score tables
compute_gene_impact does not return an empty GeneImpact sequence — the
`pd.concat` of an empty list raises ValueError("No objects to
concatenate") — and consequently score_patient with zero variants raises
that ValueError after resolving the tissue, instead of succeeding with
rbi 0.0 and gene_count 0 as the spec states. -/
theorem compute_gene_impact_empty_tables_raises :
    compute_gene_impact ([] : List (List ScoreRow)) "breast"
      = .error (.valueError "No objects to concatenate")
    ∧ score_patient true emptyScorer (.tuples []) "breast" true
      = ([Event.resolveTissue "breast"],
         .error (.valueError "No objects to concatenate")) :=
  ⟨by decide, by decide⟩

/-- Claim C8: get_tissue_ontology matches case-insensitively — any two
labels with the same lower-casing resolve to the same identifier, in
particular "BREAST" and "breast" both give UBERON:0008367 — and a label
with no entry fails with the UnsupportedCancerType error (Python
ValueError) whose message lists every supported label of TISSUE_MAP. -/
theorem get_tissue_ontology_case_insensitive_and_enumerates :
    (∀ s₁ s₂ : String, lower s₁ = lower s₂ →
      ∀ o : String,
        get_tissue_ontology s₁ = .ok o ↔ get_tissue_ontology s₂ = .ok o)
    ∧ get_tissue_ontology "BREAST" = .ok "UBERON:0008367"
    ∧ get_tissue_ontology "breast" = .ok "UBERON:0008367"
    ∧ get_tissue_ontology "kidney"
        = .error (.valueError (unsupportedMsg "kidney"))
    ∧ unsupportedMsg "kidney"
        = "Cancer type \x27kidney\x27 not supported. Supported types: breast, lung, colon, prostate, ovarian"
    ∧ TISSUE_MAP.map Prod.fst
        = ["breast", "lung", "colon", "prostate", "ovarian"] := by
  refine ⟨fun s₁ s₂ h o => ?_, by decide, by decide, by decide, by decide, by decide⟩
  cases hl : TISSUE_MAP.lookup (lower s₂) <;>
    simp [get_tissue_ontology, h, hl]

/-- Claim C8 witness: the case-insensitivity conjunct applied at the
concrete pair "BREAST" / "breast". -/
theorem get_tissue_ontology_case_insensitive_witness :
    get_tissue_ontology "BREAST" = .ok "UBERON:0008367"
      ↔ get_tissue_ontology "breast" = .ok "UBERON:0008367" :=
  get_tissue_ontology_case_insensitive_and_enumerates.1 "BREAST" "breast"
    (by decide) "UBERON:0008367"

/-- Claim C2: compute_rbi of a non-empty gene-impact list is the sum of the
gene_impact values divided by the number of rows, and compute_rbi of the
empty list is 0.0 (no error, no NaN). -/
theorem compute_rbi_mean_and_empty (gene_impact_df : List GeneImpact) :
    (gene_impact_df ≠ [] →
      compute_rbi gene_impact_df
        = (gene_impact_df.map (fun g => g.gene_impact)).sum
            / (gene_impact_df.length : ℚ))
    ∧ compute_rbi ([] : List GeneImpact) = 0 := by
  constructor
  · intro h
    have hlen : 0 < gene_impact_df.length := List.length_pos.mpr h
    simp [compute_rbi, hlen]
  · rfl

/-- Claim C2 witness: compute_rbi on the two-gene list with impacts 4 and 1
equals (4 + 1) / 2 = 5/2. -/
theorem compute_rbi_mean_witness :
    ([GeneImpact.mk "G" 4, GeneImpact.mk "H" 1] : List GeneImpact) ≠ []
    ∧ compute_rbi [GeneImpact.mk "G" 4, GeneImpact.mk "H" 1]
        = ([GeneImpact.mk "G" 4, GeneImpact.mk "H" 1].map
            (fun g => g.gene_impact)).sum
          / (([GeneImpact.mk "G" 4, GeneImpact.mk "H" 1] : List GeneImpact).length : ℚ) :=
  ⟨by decide,
   (compute_rbi_mean_and_empty [GeneImpact.mk "G" 4, GeneImpact.mk "H" 1]).1
     (by decide)⟩

/-- Claim C4 counterexample: a run of score_patient with one variant and
the unsupported cancer type "kidney" fails with the UnsupportedCancerType
error (Python ValueError), yet its event trace shows the external scoring
call for the variant HAPPENING BEFORE the tissue resolution — so the claim
that a failing run issues no external call before tissue resolution is
false on the code. -/
theorem score_patient_scores_before_resolution_counterexample :
    (score_patient true emptyScorer
        (.tuples [("chr1", 100, "A", "T")]) "kidney" false).2
      = .error (.valueError (unsupportedMsg "kidney"))
    ∧ (score_patient true emptyScorer
        (.tuples [("chr1", 100, "A", "T")]) "kidney" false).1
      = [Event.scoreCall "chr1" 100 "A" "T", Event.resolveTissue "kidney"] :=
  ⟨by decide, by decide⟩

/-- Claim C4 amended: for every cancer type with no TISSUE_MAP entry,
score_patient does fail with the UnsupportedCancerType error (Python
ValueError), but only after issuing one external scoring call for every
variant in the list: tissue resolution happens inside compute_gene_impact,
after the scoring loop. -/
theorem score_patient_unsupported_fails_after_scoring
    (score_variant : String → Int → String → String → List ScoreRow)
    (vs : List (String × Int × String × String))
    (cancer_type : String) (return_details : Bool)
    (h : TISSUE_MAP.lookup (lower cancer_type) = none) :
    score_patient true score_variant (.tuples vs) cancer_type return_details
      = (vs.map (fun v => Event.scoreCall v.1 v.2.1 v.2.2.1 v.2.2.2)
          ++ [Event.resolveTissue cancer_type],
         .error (.valueError (unsupportedMsg cancer_type))) := by
  simp [score_patient, compute_gene_impact, get_tissue_ontology, h]

/-- Claim C4 amended witness: the amended statement at the concrete
unsupported cancer type "kidney" with one variant and detailed output. -/
theorem score_patient_unsupported_fails_after_scoring_witness :
    score_patient true emptyScorer
        (.tuples [("chr1", 100, "A", "T")]) "kidney" true
      = ([Event.scoreCall "chr1" 100 "A" "T", Event.resolveTissue "kidney"],
         .error (.valueError (unsupportedMsg "kidney"))) :=
  score_patient_unsupported_fails_after_scoring emptyScorer
    [("chr1", 100, "A", "T")] "kidney" true (by decide)

/-- Claim C5 counterexample: on a variant list containing the malformed
tuple ("", 0, "A", "T") — empty chromosome label and non-positive
position — score_patient does not fail with any InvalidVariant error: the
malformed tuple is forwarded to the external scorer (first trace event)
and the call succeeds, returning RBI 0.0. -/
theorem score_patient_malformed_variant_accepted_counterexample :
    score_patient true emptyScorer (.tuples [("", 0, "A", "T")]) "breast" false
      = ([Event.scoreCall "" 0 "A" "T", Event.resolveTissue "breast"],
         .ok (.scalar 0)) := by decide

/-- Claim C5 amended: score_patient performs no validation of variant
tuples.  For every non-empty variant list — malformed tuples included —
and every supported cancer type, every tuple is forwarded to the external
scoring collaborator (one scoring event per tuple, in order) and the call
then succeeds; no InvalidVariant failure exists in the code. -/
theorem score_patient_no_variant_validation
    (score_variant : String → Int → String → String → List ScoreRow)
    (vs : List (String × Int × String × String))
    (cancer_type ontology : String) (return_details : Bool)
    (hok : get_tissue_ontology cancer_type = .ok ontology) (hne : vs ≠ []) :
    (score_patient true score_variant (.tuples vs) cancer_type return_details).1
      = vs.map (fun v => Event.scoreCall v.1 v.2.1 v.2.2.1 v.2.2.2)
        ++ [Event.resolveTissue cancer_type]
    ∧ ∃ r, (score_patient true score_variant
        (.tuples vs) cancer_type return_details).2 = .ok r := by
  obtain ⟨v, vs', rfl⟩ := List.exists_cons_of_ne_nil hne
  cases return_details <;>
    simp [score_patient, compute_gene_impact, hok, List.isEmpty]

/-- Claim C5 amended witness: the amended statement at a list containing
the malformed tuple ("", 0, "A", "T") with the supported type "breast". -/
theorem score_patient_no_variant_validation_witness :
    (score_patient true emptyScorer (.tuples [("", 0, "A", "T")]) "breast" true).1
      = [Event.scoreCall "" 0 "A" "T", Event.resolveTissue "breast"]
    ∧ ∃ r, (score_patient true emptyScorer
        (.tuples [("", 0, "A", "T")]) "breast" true).2 = .ok r := by
  have h := score_patient_no_variant_validation emptyScorer
    [("", 0, "A", "T")] "breast" "UBERON:0008367" true (by decide) (by decide)
  simpa using h

/-- Rows of the concatenated input surviving the tissue/assay filter: the
`filtered` frame of compute_gene_impact. -/
def filteredRows (tables : List (List ScoreRow)) (ontology : String) :
    List ScoreRow :=
  tables.flatten.filter (rowMatches ontology)

/-- Group keys of the `groupby('gene_name')` step: the distinct surviving
gene names in gene-name order. -/
def groupKeys (tables : List (List ScoreRow)) (ontology : String) :
    List String :=
  List.insertionSort nameLe
    (((filteredRows tables ontology).map (fun r => r.gene_name)).dedup)

/-- Grouped per-gene rows before the final descending sort. -/
def groupRows (tables : List (List ScoreRow)) (ontology : String) :
    List GeneImpact :=
  (groupKeys tables ontology).map (fun g =>
    GeneImpact.mk g
      (meanAbs ((filteredRows tables ontology).filter
        (fun r => r.gene_name == g))))

/-- On a supported cancer type and a non-empty table list,
compute_gene_impact returns the descending sort of the grouped rows. -/
theorem compute_gene_impact_ok (tables : List (List ScoreRow))
    (cancer_type ontology : String)
    (hok : get_tissue_ontology cancer_type = .ok ontology)
    (hne : tables ≠ []) :
    compute_gene_impact tables cancer_type
      = .ok (List.insertionSort impactGe (groupRows tables ontology)) := by
  obtain ⟨t, ts, rfl⟩ := List.exists_cons_of_ne_nil hne
  simp [compute_gene_impact, hok, groupRows, groupKeys, filteredRows,
    List.isEmpty]

/-- Filtering the surviving rows down to one gene picks out exactly the
matching rows of that gene. -/
theorem filter_gene_eq (tables : List (List ScoreRow)) (ontology g : String) :
    (filteredRows tables ontology).filter (fun r => r.gene_name == g)
      = matching_rows tables ontology g := by
  unfold filteredRows matching_rows rowMatches
  rw [List.filter_filter]
  exact List.filter_congr (fun r _ => Bool.and_comm _ _)

/-- A gene is a group key exactly when it has at least one matching row. -/
theorem mem_groupKeys (tables : List (List ScoreRow)) (ontology g : String) :
    g ∈ groupKeys tables ontology ↔ matching_rows tables ontology g ≠ [] := by
  unfold groupKeys
  rw [(List.perm_insertionSort nameLe _).mem_iff, List.mem_dedup,
    List.mem_map, ← filter_gene_eq]
  constructor
  · rintro ⟨r, hr, rfl⟩ hnil
    have hmem : r ∈ (filteredRows tables ontology).filter
        (fun x => x.gene_name == r.gene_name) :=
      List.mem_filter.mpr ⟨hr, by simp⟩
    rw [hnil] at hmem
    exact absurd hmem (List.not_mem_nil r)
  · intro hne
    obtain ⟨r, hr⟩ := List.exists_mem_of_ne_nil _ hne
    have hm := List.mem_filter.mp hr
    exact ⟨r, hm.1, by simpa using hm.2⟩

/-- The group keys list has no duplicates. -/
theorem nodup_groupKeys (tables : List (List ScoreRow)) (ontology : String) :
    (groupKeys tables ontology).Nodup :=
  (List.perm_insertionSort nameLe _).symm.nodup (List.nodup_dedup _)

/-- Claim C1: for every collection of score tables and every resolved
tissue ontology, a row (g, v) is in the output of compute_gene_impact
exactly when gene g has at least one row matching the target tissue and
the RNA_SEQ assay, and v is the mean of the absolute raw scores over
exactly those matching rows. -/
theorem gene_impact_is_mean_abs_of_matching_rows
    (tables : List (List ScoreRow)) (cancer_type ontology : String)
    (res : List GeneImpact)
    (hont : get_tissue_ontology cancer_type = .ok ontology)
    (hres : compute_gene_impact tables cancer_type = .ok res)
    (g : String) (v : ℚ) :
    GeneImpact.mk g v ∈ res ↔
      (matching_rows tables ontology g ≠ []
        ∧ v = meanAbs (matching_rows tables ontology g)) := by
  have hne : tables ≠ [] := by
    rintro rfl
    simp [compute_gene_impact, hont] at hres
  rw [compute_gene_impact_ok tables cancer_type ontology hont hne] at hres
  obtain rfl : res = List.insertionSort impactGe (groupRows tables ontology) :=
    (Except.ok.inj hres).symm
  rw [(List.perm_insertionSort impactGe _).mem_iff]
  unfold groupRows
  rw [List.mem_map]
  constructor
  · rintro ⟨g', hg', heq⟩
    injection heq with h1 h2
    subst h1
    exact ⟨(mem_groupKeys tables ontology g').mp hg',
      by rw [← h2, filter_gene_eq]⟩
  · rintro ⟨hnem, rfl⟩
    exact ⟨g, (mem_groupKeys tables ontology g).mpr hnem,
      by rw [filter_gene_eq]⟩

/-- Concrete rows used by the witnesses: gene G and gene H in the breast
tissue with RNA_SEQ output and various raw scores. -/
def rowG2p : ScoreRow :=
  ⟨"G", "RNA_SEQ", "UBERON:0008367", "breast epithelium", 2, 0⟩

def rowG2m : ScoreRow :=
  ⟨"G", "RNA_SEQ", "UBERON:0008367", "breast epithelium", -2, 0⟩

def rowG3 : ScoreRow :=
  ⟨"G", "RNA_SEQ", "UBERON:0008367", "breast epithelium", 3, 0⟩

def rowGm5 : ScoreRow :=
  ⟨"G", "RNA_SEQ", "UBERON:0008367", "breast epithelium", -5, 0⟩

def rowH1 : ScoreRow :=
  ⟨"H", "RNA_SEQ", "UBERON:0008367", "breast epithelium", 1, 0⟩

/-- Concrete evaluation: the two tables scoring gene G with raw scores
+2.0 and -2.0 aggregate to the single row (G, 2.0). -/
theorem compute_gene_impact_G2_eval :
    compute_gene_impact [[rowG2p], [rowG2m]] "breast"
      = .ok [GeneImpact.mk "G" 2] := by
  rw [compute_gene_impact_ok [[rowG2p], [rowG2m]] "breast" "UBERON:0008367"
    (by decide) (by decide)]
  have hkeys : groupKeys [[rowG2p], [rowG2m]] "UBERON:0008367" = ["G"] := by
    decide
  have hfilt : (filteredRows [[rowG2p], [rowG2m]] "UBERON:0008367").filter
      (fun r => r.gene_name == "G") = [rowG2p, rowG2m] := by decide
  have hmean : meanAbs [rowG2p, rowG2m] = 2 := by
    norm_num [meanAbs, rowG2p, rowG2m]
  unfold groupRows
  rw [hkeys]
  simp [hfilt, hmean, List.insertionSort, List.orderedInsert]

/-- Claim C1 witness: two variants scoring gene G with raw scores +2.0 and
-2.0 in the target tissue/assay yield gene_impact 2.0 (not 0.0): the
membership characterization applied at the concrete tables, together with
the concrete evaluation of compute_gene_impact. -/
theorem gene_impact_is_mean_abs_witness :
    get_tissue_ontology "breast" = .ok "UBERON:0008367"
    ∧ compute_gene_impact [[rowG2p], [rowG2m]] "breast"
        = .ok [GeneImpact.mk "G" 2]
    ∧ (GeneImpact.mk "G" 2 ∈ [GeneImpact.mk "G" 2] ↔
        (matching_rows [[rowG2p], [rowG2m]] "UBERON:0008367" "G" ≠ []
          ∧ (2 : ℚ) = meanAbs (matching_rows [[rowG2p], [rowG2m]]
              "UBERON:0008367" "G"))) :=
  ⟨by decide, compute_gene_impact_G2_eval,
   gene_impact_is_mean_abs_of_matching_rows [[rowG2p], [rowG2m]] "breast"
     "UBERON:0008367" [GeneImpact.mk "G" 2] (by decide)
     compute_gene_impact_G2_eval "G" 2⟩

/-- Claim C7: every successful output of compute_gene_impact is sorted in
descending order of gene_impact, its gene names are pairwise distinct, and
the multiset of its gene names is exactly the distinct gene names that
survive the tissue/assay filter — one row per surviving gene. -/
theorem gene_impact_unique_and_sorted
    (tables : List (List ScoreRow)) (cancer_type ontology : String)
    (res : List GeneImpact)
    (hont : get_tissue_ontology cancer_type = .ok ontology)
    (hres : compute_gene_impact tables cancer_type = .ok res) :
    List.Sorted impactGe res
    ∧ (res.map (fun gi => gi.gene_name)).Nodup
    ∧ (res.map (fun gi => gi.gene_name)).Perm
        (((filteredRows tables ontology).map (fun r => r.gene_name)).dedup) := by
  have hne : tables ≠ [] := by
    rintro rfl
    simp [compute_gene_impact, hont] at hres
  rw [compute_gene_impact_ok tables cancer_type ontology hont hne] at hres
  obtain rfl : res = List.insertionSort impactGe (groupRows tables ontology) :=
    (Except.ok.inj hres).symm
  have hmapperm :
      ((List.insertionSort impactGe (groupRows tables ontology)).map
        (fun gi => gi.gene_name)).Perm
      ((groupRows tables ontology).map (fun gi => gi.gene_name)) :=
    (List.perm_insertionSort impactGe _).map _
  have hkeys : (groupRows tables ontology).map (fun gi => gi.gene_name)
      = groupKeys tables ontology := by
    unfold groupRows
    rw [List.map_map]
    exact List.map_id' _
  rw [hkeys] at hmapperm
  refine ⟨List.sorted_insertionSort impactGe _, ?_, ?_⟩
  · exact hmapperm.symm.nodup (nodup_groupKeys tables ontology)
  · exact hmapperm.trans (List.perm_insertionSort nameLe _)

/-- Concrete evaluation: two variants with rows (G, +3.0), (H, +1.0) and
(G, -5.0) in the target tissue/assay aggregate to
[(G, 4.0), (H, 1.0)] in descending order. -/
theorem compute_gene_impact_GH_eval :
    compute_gene_impact [[rowG3, rowH1], [rowGm5]] "breast"
      = .ok [GeneImpact.mk "G" 4, GeneImpact.mk "H" 1] := by
  rw [compute_gene_impact_ok [[rowG3, rowH1], [rowGm5]] "breast"
    "UBERON:0008367" (by decide) (by decide)]
  have hkeys : groupKeys [[rowG3, rowH1], [rowGm5]] "UBERON:0008367"
      = ["G", "H"] := by decide
  have hfG : (filteredRows [[rowG3, rowH1], [rowGm5]] "UBERON:0008367").filter
      (fun r => r.gene_name == "G") = [rowG3, rowGm5] := by decide
  have hfH : (filteredRows [[rowG3, rowH1], [rowGm5]] "UBERON:0008367").filter
      (fun r => r.gene_name == "H") = [rowH1] := by decide
  have hmG : meanAbs [rowG3, rowGm5] = 4 := by
    norm_num [meanAbs, rowG3, rowGm5]
  have hmH : meanAbs [rowH1] = 1 := by
    norm_num [meanAbs, rowH1]
  unfold groupRows
  rw [hkeys]
  simp only [List.map_cons, List.map_nil, hfG, hfH, hmG, hmH]
  norm_num [List.insertionSort, List.orderedInsert, impactGe]

/-- Claim C7 witness: the uniqueness/sortedness statement applied at the
concrete two-variant tables, whose aggregate is [(G, 4.0), (H, 1.0)]. -/
theorem gene_impact_unique_and_sorted_witness :
    List.Sorted impactGe [GeneImpact.mk "G" 4, GeneImpact.mk "H" 1]
    ∧ ([GeneImpact.mk "G" 4, GeneImpact.mk "H" 1].map
        (fun gi => gi.gene_name)).Nodup
    ∧ ([GeneImpact.mk "G" 4, GeneImpact.mk "H" 1].map
        (fun gi => gi.gene_name)).Perm
        (((filteredRows [[rowG3, rowH1], [rowGm5]] "UBERON:0008367").map
          (fun r => r.gene_name)).dedup) :=
  gene_impact_unique_and_sorted [[rowG3, rowH1], [rowGm5]] "breast"
    "UBERON:0008367" [GeneImpact.mk "G" 4, GeneImpact.mk "H" 1]
    (by decide) compute_gene_impact_GH_eval

/-- Claim C6: compute_gene_impact depends only on the multiset of input
rows: two table lists whose concatenations are permutations of each other
(as is the case for any permutation of the tables and any permutation of
the rows inside each table), and which are both empty or both non-empty,
produce identical output. -/
theorem compute_gene_impact_order_invariant
    (t1 t2 : List (List ScoreRow)) (cancer_type : String)
    (hperm : t1.flatten.Perm t2.flatten) (hemp : t1 = [] ↔ t2 = []) :
    compute_gene_impact t1 cancer_type = compute_gene_impact t2 cancer_type := by
  cases hct : get_tissue_ontology cancer_type with
  | error e => simp [compute_gene_impact, hct]
  | ok ontology =>
    by_cases h1 : t1 = []
    · have h2 : t2 = [] := hemp.mp h1
      subst h1; subst h2; rfl
    · have h2 : t2 ≠ [] := fun h => h1 (hemp.mpr h)
      rw [compute_gene_impact_ok t1 cancer_type ontology hct h1,
        compute_gene_impact_ok t2 cancer_type ontology hct h2]
      have hfilt : (filteredRows t1 ontology).Perm (filteredRows t2 ontology) :=
        hperm.filter _
      have hkeys : groupKeys t1 ontology = groupKeys t2 ontology :=
        @List.eq_of_perm_of_sorted String nameLe _ _ _
          ((List.perm_insertionSort nameLe _).trans
            (((hfilt.map _).dedup).trans (List.perm_insertionSort nameLe _).symm))
          (List.sorted_insertionSort nameLe _)
          (List.sorted_insertionSort nameLe _)
      have hrows : groupRows t1 ontology = groupRows t2 ontology := by
        unfold groupRows
        rw [hkeys]
        refine List.map_congr_left (fun g _ => ?_)
        have hpg : ((filteredRows t1 ontology).filter
            (fun r => r.gene_name == g)).Perm
            ((filteredRows t2 ontology).filter (fun r => r.gene_name == g)) :=
          hfilt.filter _
        have hm : meanAbs ((filteredRows t1 ontology).filter
              (fun r => r.gene_name == g))
            = meanAbs ((filteredRows t2 ontology).filter
              (fun r => r.gene_name == g)) := by
          unfold meanAbs
          rw [(hpg.map _).sum_eq, hpg.length_eq]
        rw [hm]
      rw [hrows]

/-- Claim C6 witness: order invariance applied at two concrete table lists
holding the same rows, with tables swapped and rows shuffled. -/
theorem compute_gene_impact_order_invariant_witness :
    [[rowG3, rowH1], [rowGm5]].flatten.Perm [[rowGm5], [rowH1, rowG3]].flatten
    ∧ compute_gene_impact [[rowG3, rowH1], [rowGm5]] "breast"
        = compute_gene_impact [[rowGm5], [rowH1, rowG3]] "breast" :=
  ⟨by decide,
   compute_gene_impact_order_invariant [[rowG3, rowH1], [rowGm5]]
     [[rowGm5], [rowH1, rowG3]] "breast" (by decide) (by decide)⟩
